import Mathlib

/-!
Shallow embedding of the line-delimited JSON-RPC tool server in
`src/scripts/server.py` (with the synchronous variant in `src/server.py`
embedded separately where a claim cites it).  JSON values are modelled with
rational numbers for JSON numbers; Python dictionaries decoded from JSON are
association lists with last-binding-wins lookup (mirroring `json.loads`
duplicate-key behaviour).  Python exceptions that can escape a handler are
modelled explicitly: the `__main__` loop catches only `json.JSONDecodeError`,
so any other exception terminates the loop.
-/

namespace MCP

/-- A decoded JSON value.  Numbers are rationals (JSON numerals are finite
decimals, hence exactly representable); this embedding never needs
floating-point rounding because the handlers only compare, truncate and
print the numbers the claims exercise. -/
inductive Json where
  | null
  | bool (b : Bool)
  | num (q : Rat)
  | str (s : String)
  | arr (xs : List Json)
  | obj (fields : List (String × Json))

/-- Python exceptions that can escape the handlers of `src/scripts/server.py`.
Only `json.JSONDecodeError` is caught by the dispatch loop, and no handler
raises that one, so any of these terminates the loop. -/
inductive PyErr where
  | keyError (k : String)
  | attributeError (msg : String)
  | typeError (msg : String)
  | valueError (msg : String)

/-- Lookup in a decoded JSON object.  `json.loads` keeps the last duplicate
key, so the fold keeps the last binding. -/
def dictFind (fields : List (String × Json)) (k : String) : Option Json :=
  fields.foldl (fun acc kv => if kv.1 = k then some kv.2 else acc) none

/-- Python truthiness of a decoded JSON value (`None`, `False`, `0`, `""`,
`[]` and the empty dict are falsy). -/
def truthy : Json → Bool
  | .null => false
  | .bool b => b
  | .num q => decide (q ≠ 0)
  | .str s => decide (s ≠ "")
  | .arr xs => !xs.isEmpty
  | .obj fields => !fields.isEmpty

/-- The Python `x or y` idiom used for the `... or {}` defaults. -/
def pyOr (x y : Json) : Json :=
  if truthy x then x else y

/-- Python `v.get(k, dflt)`: only dictionaries have `.get`; every other
decoded JSON value raises `AttributeError`. -/
def pyGet (v : Json) (k : String) (dflt : Json) : Except PyErr Json :=
  match v with
  | .obj fields => .ok ((dictFind fields k).getD dflt)
  | _ => .error (.attributeError "object has no attribute get")

/-- Python `v[k]` on a decoded value: `KeyError` when the key is absent from
a dictionary, `TypeError` when the value is not a dictionary at all (the
handlers only ever index the request object, which the loop has already
confirmed to be a dict by calling `.get` on it). -/
def pyIndex (v : Json) (k : String) : Except PyErr Json :=
  match v with
  | .obj fields =>
    match dictFind fields k with
    | some x => .ok x
    | none => .error (.keyError k)
  | _ => .error (.typeError "value is not subscriptable")

/-- Python `str()` of a decoded JSON value, as used by the f-strings in the
handlers.  Exact for `None`, booleans, strings and integral numbers — the
only cases any claim's output text exercises; the rendering of containers
and non-integral numbers is abbreviated (no handler output checked by a
claim formats one). -/
def pyStr : Json → String
  | .null => "None"
  | .bool true => "True"
  | .bool false => "False"
  | .num q => if q.den = 1 then toString q.num else toString q
  | .str s => s
  | .arr _ => "<list>"
  | .obj _ => "<dict>"

/-- Python `int(x)` on a decoded JSON value: booleans become 0/1, numbers
truncate toward zero, numeric strings parse (integral literals only; exotic
forms such as underscores are not modelled and no claim exercises them),
everything else raises. -/
def pyIntConv : Json → Except PyErr Int
  | .bool b => .ok (if b then 1 else 0)
  | .num q => .ok (Int.tdiv q.num (q.den : Int))
  | .str s =>
    match s.trim.toInt? with
    | some n => .ok n
    | none => .error (.valueError "invalid literal for int")
  | _ => .error (.typeError "int argument must be a number")

/-- Python `float(x)` on a decoded JSON value: numbers pass through,
booleans become 0/1, everything else raises.  Parsing of decimal strings is
not modelled (no claim passes a string delay). -/
def pyFloatConv : Json → Except PyErr Rat
  | .num q => .ok q
  | .bool b => .ok (if b then 1 else 0)
  | .str _ => .error (.valueError "could not convert string to float")
  | _ => .error (.typeError "float argument must be a number")

/-- `time.sleep(d)`: raises `ValueError` for a negative duration, otherwise
has no effect observable in this embedding (real time is not modelled). -/
def pySleep (d : Rat) : Except PyErr Unit :=
  if d < 0 then .error (.valueError "sleep length must be non-negative") else .ok ()

/-- The `hello` descriptor from the module-level `TOOLS` table of
`src/scripts/server.py`. -/
def helloDescriptor : Json :=
  .obj [("name", .str "hello"), ("description", .str "Say hello to someone"),
    ("input_schema", .obj [("type", .str "object"),
      ("properties", .obj [("name", .obj [("type", .str "string"),
        ("description", .str "Name to greet"), ("default", .str "World")])]),
      ("required", .arr [])])]

/-- The `call_stream` descriptor from the module-level `TOOLS` table. -/
def callStreamDescriptor : Json :=
  .obj [("name", .str "call_stream"), ("description", .str "Stream count messages from 1 to n"),
    ("input_schema", .obj [("type", .str "object"),
      ("properties", .obj [("count", .obj [("type", .str "integer"),
        ("description", .str "Number of messages to stream"), ("default", .num 5)]),
        ("delay", .obj [("type", .str "number"),
          ("description", .str "Delay in seconds between messages"), ("default", .num 1)])]),
      ("required", .arr [])])]

/-- The module-level tool registry `TOOLS`, built once at import time and
never mutated by any handler. -/
def TOOLS : Json := .arr [helloDescriptor, callStreamDescriptor]

/-- What one handler invocation did: the JSON lines it wrote itself via
`send_line`, and either the value it returned (Python `None` or a response
dict) or the exception that escaped it. -/
structure HandlerResult where
  written : List Json
  outcome : Except PyErr (Option Json)

/-- `handle_initialize`: capability advertisement; `req["id"]` raises
`KeyError` when the request has no id. -/
def handle_initialize (req : Json) : HandlerResult :=
  match pyIndex req "id" with
  | .error e => ⟨[], .error e⟩
  | .ok idv =>
    ⟨[], .ok (some (.obj [("jsonrpc", .str "2.0"), ("id", idv),
      ("result", .obj [("mcp_version", .str "1.0"),
        ("capabilities", .obj [("chat", .bool true), ("streaming", .bool true),
          ("tool_calls", .bool true), ("shutdown", .bool true)])])]))⟩

/-- `handle_tools_list`: returns the registry verbatim. -/
def handle_tools_list (req : Json) : HandlerResult :=
  match pyIndex req "id" with
  | .error e => ⟨[], .error e⟩
  | .ok idv =>
    ⟨[], .ok (some (.obj [("jsonrpc", .str "2.0"), ("id", idv),
      ("result", .obj [("tools", TOOLS)])]))⟩

/-- The chunk notification `send_line`d on iteration `i` (1-based) of the
`call_stream` loop. -/
def chunkMsg (i c : Int) : Json :=
  .obj [("jsonrpc", .str "2.0"), ("method", .str "chunk"),
    ("params", .obj [("result", .str ("Chunk " ++ toString i ++ " of " ++ toString c))])]

/-- The terminal response of a completed `call_stream` invocation. -/
def streamFinal (idv : Json) : Json :=
  .obj [("jsonrpc", .str "2.0"), ("id", idv),
    ("result", .obj [("result", .str "Stream complete")])]

/-- The `for i in range(count)` loop of `handle_call_stream`: each iteration
writes its chunk and then sleeps, so a negative delay raises after the first
chunk has already been written.  `i` is the current 0-based index and the
`Nat` fuel is the number of iterations left. -/
def chunkLoopAux (c : Int) (d : Rat) : Nat → Nat → List Json × Except PyErr Unit
  | _, 0 => ([], .ok ())
  | i, Nat.succ n =>
    let msg := chunkMsg (Int.ofNat i + 1) c
    match pySleep d with
    | .error e => ([msg], .error e)
    | .ok _ =>
      let r := chunkLoopAux c d (i + 1) n
      (msg :: r.1, r.2)

/-- The whole chunk loop: `range(count)` is empty for `count ≤ 0`. -/
def runChunkLoop (c : Int) (d : Rat) : List Json × Except PyErr Unit :=
  chunkLoopAux c d 0 c.toNat

/-- `handle_call_stream`: recomputes `req.get("params", {}).get("arguments", {})`
itself — unlike `handle_tool_call` it applies no `or {}`, so a present-but-null
`arguments` raises `AttributeError` here.  The terminal response is written
only after the loop, and `req["id"]` can still raise then. -/
def handle_call_stream (req : Json) : HandlerResult :=
  match pyGet req "params" (.obj []) with
  | .error e => ⟨[], .error e⟩
  | .ok ps =>
    match pyGet ps "arguments" (.obj []) with
    | .error e => ⟨[], .error e⟩
    | .ok args =>
      match pyGet args "count" (.num 5) with
      | .error e => ⟨[], .error e⟩
      | .ok cv =>
        match pyIntConv cv with
        | .error e => ⟨[], .error e⟩
        | .ok c =>
          match pyGet args "delay" (.num 1) with
          | .error e => ⟨[], .error e⟩
          | .ok dv =>
            match pyFloatConv dv with
            | .error e => ⟨[], .error e⟩
            | .ok d =>
              let body := runChunkLoop c d
              match body.2 with
              | .error e => ⟨body.1, .error e⟩
              | .ok _ =>
                match pyIndex req "id" with
                | .error e => ⟨body.1, .error e⟩
                | .ok idv => ⟨body.1 ++ [streamFinal idv], .ok none⟩

/-- Python `==` between a decoded JSON value and a string literal, as in the
`if name == "hello"` chain: true exactly for the equal string (comparisons
with non-strings are `False`, never an error). -/
def jsonEqStr : Json → String → Bool
  | .str s, t => s = t
  | _, _ => false

/-- The success response of the synchronous `hello` tool. -/
def helloResp (idv who : Json) : Json :=
  .obj [("jsonrpc", .str "2.0"), ("id", idv),
    ("result", .obj [("result", .str ("Hello, " ++ pyStr who ++ "!"))])]

/-- The `-32601` "Tool not found" error response of `handle_tool_call`. -/
def toolNotFoundResp (idv : Json) : Json :=
  .obj [("jsonrpc", .str "2.0"), ("id", idv),
    ("error", .obj [("code", .num (-32601)), ("message", .str "Tool not found")])]

/-- `handle_tool_call`: `params = req.get("params", {}) or {}` and
`args = params.get("arguments", {}) or {}` are computed before the name
dispatch; the name comparison is exact string equality; an unknown name
returns the `-32601` error; `call_stream` delegates to `handle_call_stream`
and the function then returns Python `None`. -/
def handle_tool_call (req : Json) : HandlerResult :=
  match pyGet req "params" (.obj []) with
  | .error e => ⟨[], .error e⟩
  | .ok ps0 =>
    let ps := pyOr ps0 (.obj [])
    match pyGet ps "name" .null with
    | .error e => ⟨[], .error e⟩
    | .ok nameV =>
      match pyGet ps "arguments" (.obj []) with
      | .error e => ⟨[], .error e⟩
      | .ok args0 =>
        let args := pyOr args0 (.obj [])
        if jsonEqStr nameV "hello" then
          match pyGet args "name" (.str "World") with
          | .error e => ⟨[], .error e⟩
          | .ok who =>
            match pyIndex req "id" with
            | .error e => ⟨[], .error e⟩
            | .ok idv => ⟨[], .ok (some (helloResp idv who))⟩
        else if jsonEqStr nameV "call_stream" then
          handle_call_stream req
        else
          match pyIndex req "id" with
          | .error e => ⟨[], .error e⟩
          | .ok idv => ⟨[], .ok (some (toolNotFoundResp idv))⟩

/-- `handle_chat_send`: `params.get("message", {})` has no `or {}`, so a
null `params` or a non-dict `message` raises `AttributeError`. -/
def handle_chat_send (req : Json) : HandlerResult :=
  match pyGet req "params" (.obj []) with
  | .error e => ⟨[], .error e⟩
  | .ok ps =>
    match pyGet ps "message" (.obj []) with
    | .error e => ⟨[], .error e⟩
    | .ok message =>
      match pyGet message "content" (.str "") with
      | .error e => ⟨[], .error e⟩
      | .ok content =>
        match pyIndex req "id" with
        | .error e => ⟨[], .error e⟩
        | .ok idv =>
          ⟨[], .ok (some (.obj [("jsonrpc", .str "2.0"), ("id", idv),
            ("result", .obj [("message", .obj [("role", .str "assistant"),
              ("content", .str ("Echo: " ++ pyStr content))])])]))⟩

/-- `handle_shutdown`: the only handler using `req.get("id")`, so an absent
id yields a response with a null id rather than a `KeyError`.  It does not
terminate the process. -/
def handle_shutdown (req : Json) : HandlerResult :=
  match pyGet req "id" .null with
  | .error e => ⟨[], .error e⟩
  | .ok idv =>
    ⟨[], .ok (some (.obj [("jsonrpc", .str "2.0"), ("id", idv), ("result", .null)]))⟩

/-- The module-level `METHOD_MAP` of `src/scripts/server.py`. -/
def METHOD_MAP : String → Option (Json → HandlerResult)
  | "initialize" => some handle_initialize
  | "tools/list" => some handle_tools_list
  | "tools/call" => some handle_tool_call
  | "chat/send" => some handle_chat_send
  | "shutdown" => some handle_shutdown
  | _ => none

/-- The unknown-method error response built inline in the dispatch loop. -/
def unknownMethodResp (rf : List (String × Json)) (mv : Json) : HandlerResult :=
  ⟨[], .ok (some (.obj [("jsonrpc", .str "2.0"), ("id", (dictFind rf "id").getD .null),
    ("error", .obj [("code", .num (-32601)),
      ("message", .str ("Unknown method " ++ pyStr mv))])]))⟩

/-- The body of the `__main__` dispatch loop after `json.loads` succeeded:
`req.get("method")` raises `AttributeError` on a non-dict request;
`METHOD_MAP.get` raises `TypeError` on an unhashable method value; an absent
or unmapped method takes the unknown-method branch. -/
def dispatchReq : Json → HandlerResult
  | .obj rf =>
    (match (dictFind rf "method").getD .null with
    | .str s =>
      match METHOD_MAP s with
      | some h => h (.obj rf)
      | none => unknownMethodResp rf (.str s)
    | .arr _ => ⟨[], .error (.typeError "unhashable type")⟩
    | .obj _ => ⟨[], .error (.typeError "unhashable type")⟩
    | mv => unknownMethodResp rf mv)
  | _ => ⟨[], .error (.attributeError "object has no attribute get")⟩

/-- One raw input line, classified the way `raw.strip()` plus `json.loads`
classifies it: whitespace-only, undecodable, or one decoded JSON value. -/
inductive Line where
  | blank
  | malformed
  | json (v : Json)

/-- One pass of the `__main__` loop for a single input line: the JSON lines
written to stdout, paired with `true` when the loop survives to read the
next line.  Blank lines are skipped; `json.JSONDecodeError` is caught and
skipped; any other exception escapes the `try` and terminates the loop,
keeping the lines already flushed; a non-`None` handler return value is
written as the response. -/
def processLine : Line → List Json × Bool
  | .blank => ([], true)
  | .malformed => ([], true)
  | .json req =>
    let hr := dispatchReq req
    match hr.outcome with
    | .error _ => (hr.written, false)
    | .ok none => (hr.written, true)
    | .ok (some resp) => (hr.written ++ [resp], true)

/-- The whole `__main__` loop over a finite input: concatenates each line's
output until a line kills the loop, whose partial output still stands. -/
def runServer : List Line → List Json
  | [] => []
  | l :: rest =>
    match processLine l with
    | (outs, true) => outs ++ runServer rest
    | (outs, false) => outs

/-- A stdout line is a response (rather than a chunk notification) exactly
when it carries an `id` field — the discrimination the spec prescribes. -/
def isResponse (m : Json) : Bool :=
  match m with
  | .obj fields => (dictFind fields "id").isSome
  | _ => false

/-- The correlation id a stdout line carries, when it is a response. -/
def respId (m : Json) : Option Json :=
  match m with
  | .obj fields => dictFind fields "id"
  | _ => none

/-- The responses among a list of stdout lines. -/
def responses (outs : List Json) : List Json :=
  outs.filter isResponse

lemma dictFind_nil (k : String) : dictFind [] k = none := rfl

lemma truthy_obj_of_find {l : List (String × Json)} {k : String} {v : Json}
    (h : dictFind l k = some v) : truthy (.obj l) = true := by
  cases l with
  | nil => simp [dictFind] at h
  | cons a t => rfl

lemma pyIntConv_natCast (n : ℕ) : pyIntConv (.num (n : ℚ)) = .ok (n : ℤ) := by
  simp [pyIntConv, Rat.num_natCast, Rat.den_natCast]

lemma pyIntConv_intCast (z : ℤ) : pyIntConv (.num (z : ℚ)) = .ok z := by
  simp [pyIntConv, Rat.num_intCast, Rat.den_intCast]

lemma pySleep_nonneg {d : ℚ} (hd : 0 ≤ d) : pySleep d = .ok () := by
  simp [pySleep, not_lt.mpr hd]

lemma chunkLoopAux_nonneg (c : ℤ) {d : ℚ} (hd : 0 ≤ d) :
    ∀ (fuel i : ℕ), chunkLoopAux c d i fuel =
      ((List.range fuel).map (fun k => chunkMsg (Int.ofNat (i + k) + 1) c), .ok ()) := by
  intro fuel
  induction fuel with
  | zero => intro i; simp [chunkLoopAux]
  | succ m ih =>
    intro i
    rw [chunkLoopAux, pySleep_nonneg hd]
    simp only [ih (i + 1), List.range_succ_eq_map, List.map_cons, List.map_map]
    refine congrArg (fun l => (_ :: l, Except.ok ())) ?_
    apply List.map_congr_left
    intro k _
    have h2 : i + (k + 1) = i + 1 + k := by omega
    simp only [Function.comp]
    rw [h2]

lemma chunkLoopAux_neg (c : ℤ) {d : ℚ} (hd : d < 0) (i n : ℕ) :
    chunkLoopAux c d i (n + 1) =
      ([chunkMsg (Int.ofNat i + 1) c],
        .error (.valueError "sleep length must be non-negative")) := by
  rw [chunkLoopAux]
  simp [pySleep, hd]

lemma runChunkLoop_natCast {d : ℚ} (hd : 0 ≤ d) (n : ℕ) :
    runChunkLoop (n : ℤ) d =
      ((List.range n).map (fun k => chunkMsg (Int.ofNat k + 1) (n : ℤ)), .ok ()) := by
  unfold runChunkLoop
  rw [Int.toNat_natCast, chunkLoopAux_nonneg _ hd n 0]
  simp

lemma chunkMsg_natCast (k n : ℕ) :
    chunkMsg (Int.ofNat k + 1) (n : ℤ) =
      .obj [("jsonrpc", .str "2.0"), ("method", .str "chunk"),
        ("params", .obj [("result",
          .str ("Chunk " ++ toString (k + 1) ++ " of " ++ toString n))])] := rfl

lemma runChunkLoop_nonpos (c : ℤ) (d : ℚ) (hc : c ≤ 0) :
    runChunkLoop c d = ([], .ok ()) := by
  unfold runChunkLoop
  rw [Int.toNat_of_nonpos hc]
  rfl

lemma runChunkLoop_neg_pos (c : ℤ) {d : ℚ} (hd : d < 0) (hc : 0 < c) :
    runChunkLoop c d =
      ([chunkMsg 1 c], .error (.valueError "sleep length must be non-negative")) := by
  unfold runChunkLoop
  obtain ⟨m, hm⟩ : ∃ m, c.toNat = m + 1 := ⟨c.toNat - 1, by omega⟩
  rw [hm, chunkLoopAux_neg c hd 0 m]
  rfl

lemma isResponse_chunkMsg (i c : ℤ) : isResponse (chunkMsg i c) = false := rfl

lemma chunkLoopAux_not_response (c : ℤ) (d : ℚ) :
    ∀ (fuel i : ℕ), ∀ m ∈ (chunkLoopAux c d i fuel).1, isResponse m = false := by
  intro fuel
  induction fuel with
  | zero => intro i m hm; simp [chunkLoopAux] at hm
  | succ k ih =>
    intro i m hm
    rw [chunkLoopAux] at hm
    cases hs : pySleep d with
    | error e =>
      rw [hs] at hm
      simp only [List.mem_singleton] at hm
      rw [hm]
      exact isResponse_chunkMsg _ _
    | ok u =>
      rw [hs] at hm
      simp only [List.mem_cons] at hm
      rcases hm with h | h
      · rw [h]; exact isResponse_chunkMsg _ _
      · exact ih (i + 1) m h

/-- C1: for every `tools/call` request naming `call_stream` with an integer
argument `count = N ≥ 0` and a non-negative delay (given or defaulted), the
dispatcher writes exactly `N` chunk notifications with payload
`Chunk i of N` for `i = 1..N` in increasing contiguous order, followed by
exactly one terminal response whose `result.result` is `Stream complete`
and whose id is the submitted request id; `N = 0` yields zero notifications
and still the terminal response. -/
theorem claim_C1_call_stream_protocol
    (rf pf af : List (String × Json)) (idv : Json) (n : ℕ) (d : ℚ)
    (hm : dictFind rf "method" = some (.str "tools/call"))
    (hp : dictFind rf "params" = some (.obj pf))
    (hn : dictFind pf "name" = some (.str "call_stream"))
    (ha : dictFind pf "arguments" = some (.obj af))
    (hc : dictFind af "count" = some (.num (n : ℚ)))
    (hdl : (dictFind af "delay").getD (.num 1) = .num d)
    (hd0 : 0 ≤ d)
    (hid : dictFind rf "id" = some idv) :
    processLine (.json (.obj rf)) =
      ((List.range n).map (fun i =>
        Json.obj [("jsonrpc", .str "2.0"), ("method", .str "chunk"),
          ("params", .obj [("result",
            .str ("Chunk " ++ toString (i + 1) ++ " of " ++ toString n))])]) ++
        [Json.obj [("jsonrpc", .str "2.0"), ("id", idv),
          ("result", .obj [("result", .str "Stream complete")])]], true) := by
  have hstream : handle_call_stream (.obj rf) =
      ⟨(List.range n).map (fun k => chunkMsg (Int.ofNat k + 1) (n : ℤ)) ++ [streamFinal idv],
        .ok none⟩ := by
    unfold handle_call_stream
    simp only [pyGet, hp, Option.getD_some, ha, hc, hdl, pyIntConv_natCast, pyFloatConv,
      runChunkLoop_natCast hd0, pyIndex, hid]
  have htc : handle_tool_call (.obj rf) =
      ⟨(List.range n).map (fun k => chunkMsg (Int.ofNat k + 1) (n : ℤ)) ++ [streamFinal idv],
        .ok none⟩ := by
    unfold handle_tool_call
    simp only [pyGet, hp, Option.getD_some, pyOr, truthy_obj_of_find hn, if_true, hn,
      jsonEqStr]
    exact hstream
  have hmap : METHOD_MAP "tools/call" = some handle_tool_call := rfl
  simp only [processLine, dispatchReq, hm, Option.getD_some, hmap, htc]
  simp only [chunkMsg_natCast, streamFinal]

/-- Witness for C1 at the concrete scenario of the spec: `count = 2`,
`delay = 0`, request id 2. -/
theorem claim_C1_witness :
    processLine (.json (.obj [("jsonrpc", .str "2.0"), ("id", .num 2),
      ("method", .str "tools/call"),
      ("params", .obj [("name", .str "call_stream"),
        ("arguments", .obj [("count", .num 2), ("delay", .num 0)])])])) =
      ((List.range 2).map (fun i =>
        Json.obj [("jsonrpc", .str "2.0"), ("method", .str "chunk"),
          ("params", .obj [("result",
            .str ("Chunk " ++ toString (i + 1) ++ " of " ++ toString 2))])]) ++
        [Json.obj [("jsonrpc", .str "2.0"), ("id", .num 2),
          ("result", .obj [("result", .str "Stream complete")])]], true) :=
  claim_C1_call_stream_protocol _ _ _ _ 2 0 rfl rfl rfl rfl rfl rfl
    (by norm_num) rfl

lemma responses_append (a b : List Json) :
    responses (a ++ b) = responses a ++ responses b := by
  simp [responses]

lemma isResponse_streamFinal (idv : Json) : isResponse (streamFinal idv) = true := rfl

lemma respId_streamFinal (idv : Json) : respId (streamFinal idv) = some idv := rfl

lemma isResponse_helloResp (idv who : Json) : isResponse (helloResp idv who) = true := rfl

lemma respId_helloResp (idv who : Json) : respId (helloResp idv who) = some idv := rfl

lemma pyIndex_id (rf : List (String × Json)) (idv : Json)
    (hid : dictFind rf "id" = some idv) : pyIndex (.obj rf) "id" = .ok idv := by
  simp [pyIndex, hid]

/-- Exactly-one-response obligation for one handler on one request. -/
def okResponses (H : Json → HandlerResult) (rf : List (String × Json)) (idv : Json) : Prop :=
  ∀ (w : List Json) (r? : Option Json), H (.obj rf) = ⟨w, .ok r?⟩ →
    ∃ r, responses (w ++ r?.toList) = [r] ∧ respId r = some idv

lemma handle_chat_send_ok (rf : List (String × Json)) (idv : Json)
    (hid : dictFind rf "id" = some idv) : okResponses handle_chat_send rf idv := by
  intro w r? h
  unfold handle_chat_send at h
  simp only [pyIndex_id rf idv hid] at h
  split at h
  · simp [HandlerResult.mk.injEq] at h
  · split at h
    · simp [HandlerResult.mk.injEq] at h
    · split at h
      · simp [HandlerResult.mk.injEq] at h
      · rw [HandlerResult.mk.injEq] at h
        obtain ⟨hw, hr⟩ := h
        cases hr
        subst hw
        exact ⟨_, rfl, rfl⟩

lemma responses_runChunkLoop (c : ℤ) (d : ℚ) : responses (runChunkLoop c d).1 = [] := by
  unfold responses
  rw [List.filter_eq_nil_iff]
  intro m hm
  have hnr := chunkLoopAux_not_response c d c.toNat 0 m hm
  simp [hnr]

lemma responses_singleton_of (m : Json) (h : isResponse m = true) : responses [m] = [m] := by
  simp [responses, List.filter, h]

lemma handle_initialize_ok (rf : List (String × Json)) (idv : Json)
    (hid : dictFind rf "id" = some idv) : okResponses handle_initialize rf idv := by
  intro w r? h
  unfold handle_initialize at h
  simp only [pyIndex_id rf idv hid] at h
  rw [HandlerResult.mk.injEq] at h
  obtain ⟨hw, hr⟩ := h
  cases hr
  subst hw
  exact ⟨_, rfl, rfl⟩

lemma handle_tools_list_ok (rf : List (String × Json)) (idv : Json)
    (hid : dictFind rf "id" = some idv) : okResponses handle_tools_list rf idv := by
  intro w r? h
  unfold handle_tools_list at h
  simp only [pyIndex_id rf idv hid] at h
  rw [HandlerResult.mk.injEq] at h
  obtain ⟨hw, hr⟩ := h
  cases hr
  subst hw
  exact ⟨_, rfl, rfl⟩

lemma handle_shutdown_ok (rf : List (String × Json)) (idv : Json)
    (hid : dictFind rf "id" = some idv) : okResponses handle_shutdown rf idv := by
  intro w r? h
  unfold handle_shutdown at h
  simp only [pyGet, hid, Option.getD_some] at h
  rw [HandlerResult.mk.injEq] at h
  obtain ⟨hw, hr⟩ := h
  cases hr
  subst hw
  exact ⟨_, rfl, rfl⟩

lemma handle_call_stream_ok (rf : List (String × Json)) (idv : Json)
    (hid : dictFind rf "id" = some idv) : okResponses handle_call_stream rf idv := by
  intro w r? h
  unfold handle_call_stream at h
  simp only [pyIndex_id rf idv hid] at h
  split at h
  · simp [HandlerResult.mk.injEq] at h
  · split at h
    · simp [HandlerResult.mk.injEq] at h
    · split at h
      · simp [HandlerResult.mk.injEq] at h
      · split at h
        · simp [HandlerResult.mk.injEq] at h
        · split at h
          · simp [HandlerResult.mk.injEq] at h
          · split at h
            · simp [HandlerResult.mk.injEq] at h
            · split at h
              · simp [HandlerResult.mk.injEq] at h
              · rw [HandlerResult.mk.injEq] at h
                obtain ⟨hw, hr⟩ := h
                cases hr
                subst hw
                refine ⟨streamFinal idv, ?_, respId_streamFinal idv⟩
                simp [responses_append, responses_runChunkLoop,
                  responses_singleton_of _ (isResponse_streamFinal idv)]

lemma handle_tool_call_ok (rf : List (String × Json)) (idv : Json)
    (hid : dictFind rf "id" = some idv) : okResponses handle_tool_call rf idv := by
  intro w r? h
  unfold handle_tool_call at h
  simp only [pyIndex_id rf idv hid] at h
  split at h
  · simp [HandlerResult.mk.injEq] at h
  · split at h
    · simp [HandlerResult.mk.injEq] at h
    · split at h
      · simp [HandlerResult.mk.injEq] at h
      · split at h
        · split at h
          · simp [HandlerResult.mk.injEq] at h
          · rw [HandlerResult.mk.injEq] at h
            obtain ⟨hw, hr⟩ := h
            cases hr
            subst hw
            exact ⟨_, rfl, rfl⟩
        · split at h
          · exact handle_call_stream_ok rf idv hid w r? h
          · rw [HandlerResult.mk.injEq] at h
            obtain ⟨hw, hr⟩ := h
            cases hr
            subst hw
            exact ⟨_, rfl, rfl⟩

lemma processLine_handler (rf : List (String × Json)) (s : String)
    (H : Json → HandlerResult)
    (hm : dictFind rf "method" = some (.str s)) (hmap : METHOD_MAP s = some H) :
    processLine (.json (.obj rf)) =
      (match (H (.obj rf)).outcome with
       | .error _ => ((H (.obj rf)).written, false)
       | .ok none => ((H (.obj rf)).written, true)
       | .ok (some resp) => ((H (.obj rf)).written ++ [resp], true)) := by
  simp only [processLine, dispatchReq, hm, Option.getD_some, hmap]

lemma processLine_ok_responses (rf : List (String × Json)) (idv : Json) (s : String)
    (H : Json → HandlerResult) (outs : List Json)
    (hm : dictFind rf "method" = some (.str s)) (hmap : METHOD_MAP s = some H)
    (hok : okResponses H rf idv)
    (hrun : processLine (.json (.obj rf)) = (outs, true)) :
    ∃ r, responses outs = [r] ∧ respId r = some idv := by
  rw [processLine_handler rf s H hm hmap] at hrun
  rcases hH : H (.obj rf) with ⟨w, oc⟩
  rw [hH] at hrun
  cases oc with
  | error e => simp at hrun
  | ok ro =>
    cases ro with
    | none =>
      simp only [Prod.mk.injEq] at hrun
      obtain ⟨hw, -⟩ := hrun
      obtain ⟨r, hr1, hr2⟩ := hok w none hH
      refine ⟨r, ?_, hr2⟩
      rw [← hw]
      simpa using hr1
    | some resp =>
      simp only [Prod.mk.injEq] at hrun
      obtain ⟨hw, -⟩ := hrun
      obtain ⟨r, hr1, hr2⟩ := hok w (some resp) hH
      refine ⟨r, ?_, hr2⟩
      rw [← hw]
      simpa using hr1

lemma runServer_cons (l : Line) (rest : List Line) :
    runServer (l :: rest) =
      (if (processLine l).2 then (processLine l).1 ++ runServer rest
       else (processLine l).1) := by
  rcases h : processLine l with ⟨outs, b⟩
  cases b <;> simp [runServer, h]

/-- C2 counterexample: the request
`{"jsonrpc":"2.0","id":7,"method":"chat/send","params":{"message":"hi"}}`
reaches the known `chat/send` handler carrying id 7, yet zero terminal
responses are written for it: `params.message` is a string, so
`message.get` raises `AttributeError`, which the loop does not catch. -/
theorem claim_C2_counterexample :
    runServer [.json (.obj [("jsonrpc", .str "2.0"), ("id", .num 7),
      ("method", .str "chat/send"),
      ("params", .obj [("message", .str "hi")])])] = [] := rfl

/-- C2 amended: for every decoded request carrying an id whose method
resolves to a known handler, IF the handler's execution raises no exception
(the loop survives the line), then exactly one terminal response carrying
that same id is written — never zero and never two.  (The unamended claim
also asserted this when the handler errors; the counterexample shows an
erroring handler instead writes no response and kills the loop.) -/
theorem claim_C2_amended_unique_response
    (rf : List (String × Json)) (idv : Json) (s : String) (outs : List Json)
    (hid : dictFind rf "id" = some idv)
    (hm : dictFind rf "method" = some (.str s))
    (hknown : s = "initialize" ∨ s = "tools/list" ∨ s = "tools/call" ∨
      s = "chat/send" ∨ s = "shutdown")
    (hrun : processLine (.json (.obj rf)) = (outs, true)) :
    ∃ r, responses outs = [r] ∧ respId r = some idv := by
  rcases hknown with h | h | h | h | h <;> subst h
  · exact processLine_ok_responses rf idv _ _ outs hm rfl
      (handle_initialize_ok rf idv hid) hrun
  · exact processLine_ok_responses rf idv _ _ outs hm rfl
      (handle_tools_list_ok rf idv hid) hrun
  · exact processLine_ok_responses rf idv _ _ outs hm rfl
      (handle_tool_call_ok rf idv hid) hrun
  · exact processLine_ok_responses rf idv _ _ outs hm rfl
      (handle_chat_send_ok rf idv hid) hrun
  · exact processLine_ok_responses rf idv _ _ outs hm rfl
      (handle_shutdown_ok rf idv hid) hrun

/-- Witness for C2 at the hello/Ada request with id 1. -/
theorem claim_C2_witness :
    ∃ r, responses [Json.obj [("jsonrpc", .str "2.0"), ("id", .num 1),
      ("result", .obj [("result", .str "Hello, Ada!")])]] = [r] ∧
      respId r = some (.num 1) :=
  claim_C2_amended_unique_response
    [("jsonrpc", .str "2.0"), ("id", .num 1), ("method", .str "tools/call"),
      ("params", .obj [("name", .str "hello"),
        ("arguments", .obj [("name", .str "Ada")])])]
    (.num 1) "tools/call"
    [Json.obj [("jsonrpc", .str "2.0"), ("id", .num 1),
      ("result", .obj [("result", .str "Hello, Ada!")])]]
    rfl rfl (Or.inr (Or.inr (Or.inl rfl))) rfl


lemma pyIndex_absent (rf : List (String × Json))
    (h : dictFind rf "id" = none) : pyIndex (.obj rf) "id" = .error (.keyError "id") := by
  simp [pyIndex, h]

lemma handle_tool_call_not_found (rf pf : List (String × Json)) (idv : Json) (nm : String)
    (hp : dictFind rf "params" = some (.obj pf))
    (hn : dictFind pf "name" = some (.str nm))
    (h1 : nm ≠ "hello") (h2 : nm ≠ "call_stream")
    (hid : dictFind rf "id" = some idv) :
    handle_tool_call (.obj rf) = ⟨[], .ok (some (toolNotFoundResp idv))⟩ := by
  unfold handle_tool_call
  simp only [pyGet, hp, Option.getD_some, pyOr, truthy_obj_of_find hn, if_true, hn,
    pyIndex_id rf idv hid]
  simp [jsonEqStr, h1, h2]

/-- C3 counterexample: a `tools/call` of `hello` whose `arguments` is the
string `"x"` raises `AttributeError` inside the handler (`args.get` on a
string); the dispatch loop does not survive it, so the following
`tools/list` request is never processed — the loop does not continue past
this per-request error.  The second conjunct shows the follow-up line on
its own does produce output. -/
theorem claim_C3_counterexample :
    runServer [.json (.obj [("jsonrpc", .str "2.0"), ("id", .num 6),
        ("method", .str "tools/call"),
        ("params", .obj [("name", .str "hello"), ("arguments", .str "x")])]),
      .json (.obj [("jsonrpc", .str "2.0"), ("id", .num 8),
        ("method", .str "tools/list")])] = [] ∧
    runServer [.json (.obj [("jsonrpc", .str "2.0"), ("id", .num 8),
        ("method", .str "tools/list")])] =
      [Json.obj [("jsonrpc", .str "2.0"), ("id", .num 8),
        ("result", .obj [("tools", TOOLS)])]] :=
  ⟨rfl, rfl⟩

/-- C3 amended: the loop survives and continues past malformed JSON, blank
lines, unknown methods, and tool-not-found errors (the latter when the
request carries an id), but an exception raised inside a handler or tool
body terminates the loop: processing stops with the output flushed so far.
(The unamended claim asserted survival of in-handler errors too.) -/
theorem claim_C3_amended_loop_survival :
    (∀ rest : List Line, runServer (Line.malformed :: rest) = runServer rest) ∧
    (∀ rest : List Line, runServer (Line.blank :: rest) = runServer rest) ∧
    (∀ (rf : List (String × Json)) (s : String) (rest : List Line),
      dictFind rf "method" = some (.str s) → METHOD_MAP s = none →
      ∃ resp, runServer (.json (.obj rf) :: rest) = resp :: runServer rest) ∧
    (∀ (rf pf : List (String × Json)) (idv : Json) (nm : String) (rest : List Line),
      dictFind rf "method" = some (.str "tools/call") →
      dictFind rf "params" = some (.obj pf) →
      dictFind pf "name" = some (.str nm) →
      nm ≠ "hello" → nm ≠ "call_stream" →
      dictFind rf "id" = some idv →
      runServer (.json (.obj rf) :: rest) =
        Json.obj [("jsonrpc", .str "2.0"), ("id", idv),
          ("error", .obj [("code", .num (-32601)), ("message", .str "Tool not found")])] ::
          runServer rest) ∧
    (∀ (l : Line) (rest : List Line), (processLine l).2 = false →
      runServer (l :: rest) = (processLine l).1) := by
  refine ⟨?_, ?_, ?_, ?_, ?_⟩
  · intro rest
    rw [runServer_cons]
    rfl
  · intro rest
    rw [runServer_cons]
    rfl
  · intro rf s rest hm hmn
    have hpl : processLine (.json (.obj rf)) =
        ([Json.obj [("jsonrpc", .str "2.0"), ("id", (dictFind rf "id").getD .null),
          ("error", .obj [("code", .num (-32601)),
            ("message", .str ("Unknown method " ++ s))])]], true) := by
      simp only [processLine, dispatchReq, hm, Option.getD_some, hmn, unknownMethodResp,
        pyStr, List.nil_append]
    refine ⟨Json.obj [("jsonrpc", .str "2.0"), ("id", (dictFind rf "id").getD .null),
      ("error", .obj [("code", .num (-32601)),
        ("message", .str ("Unknown method " ++ s))])], ?_⟩
    rw [runServer_cons, hpl]
    rfl
  · intro rf pf idv nm rest hm hp hn h1 h2 hid
    have hpl : processLine (.json (.obj rf)) = ([toolNotFoundResp idv], true) := by
      rw [processLine_handler rf "tools/call" handle_tool_call hm rfl,
        handle_tool_call_not_found rf pf idv nm hp hn h1 h2 hid]
      rfl
    rw [runServer_cons, hpl]
    rfl
  · intro l rest hf
    rw [runServer_cons, hf]
    rfl

/-- Witness for C3: a `chat/send` request whose `params.message` is the
number 3 raises `AttributeError`; the loop dies and the following blank
line is never read, so the run's whole output is the empty output of the
crashing line. -/
theorem claim_C3_witness :
    runServer [Line.json (.obj [("jsonrpc", .str "2.0"), ("id", .num 6),
        ("method", .str "chat/send"), ("params", .obj [("message", .num 3)])]),
      Line.blank] = [] :=
  (claim_C3_amended_loop_survival.2.2.2.2 (Line.json (.obj [("jsonrpc", .str "2.0"),
    ("id", .num 6), ("method", .str "chat/send"),
    ("params", .obj [("message", .num 3)])])) [Line.blank] rfl).trans rfl

/-- C4 counterexample: `call_stream` with `count = 1`, `delay = -1` does not
behave as if the delay were 0 — it writes the first chunk notification,
then `time.sleep(-1)` raises `ValueError`: no terminal response is written
and the loop dies. -/
theorem claim_C4_counterexample :
    processLine (.json (.obj [("jsonrpc", .str "2.0"), ("id", .num 3),
      ("method", .str "tools/call"),
      ("params", .obj [("name", .str "call_stream"),
        ("arguments", .obj [("count", .num 1), ("delay", .num (-1))])])])) =
      ([Json.obj [("jsonrpc", .str "2.0"), ("method", .str "chunk"),
        ("params", .obj [("result", .str "Chunk 1 of 1")])]], false) := rfl

/-- C4 amended: a negative delay is passed straight to `time.sleep`, which
raises `ValueError`.  With `count ≤ 0` the loop body never runs, so the
invocation still completes with the terminal response (indistinguishable
from `delay = 0`); with `count ≥ 1` exactly the first chunk notification is
written and then the invocation aborts with no terminal response, killing
the loop. -/
theorem claim_C4_amended_negative_delay
    (rf pf af : List (String × Json)) (idv : Json) (c : ℤ) (d : ℚ)
    (hm : dictFind rf "method" = some (.str "tools/call"))
    (hp : dictFind rf "params" = some (.obj pf))
    (hn : dictFind pf "name" = some (.str "call_stream"))
    (ha : dictFind pf "arguments" = some (.obj af))
    (hc : dictFind af "count" = some (.num (c : ℚ)))
    (hdl : dictFind af "delay" = some (.num d))
    (hd : d < 0)
    (hid : dictFind rf "id" = some idv) :
    processLine (.json (.obj rf)) =
      (if c ≤ 0 then
        ([Json.obj [("jsonrpc", .str "2.0"), ("id", idv),
          ("result", .obj [("result", .str "Stream complete")])]], true)
      else
        ([Json.obj [("jsonrpc", .str "2.0"), ("method", .str "chunk"),
          ("params", .obj [("result", .str ("Chunk 1 of " ++ toString c))])]], false)) := by
  by_cases hcle : c ≤ 0
  · have hstream : handle_call_stream (.obj rf) = ⟨[streamFinal idv], .ok none⟩ := by
      unfold handle_call_stream
      simp only [pyGet, hp, Option.getD_some, ha, hc, hdl, pyIntConv_intCast, pyFloatConv,
        runChunkLoop_nonpos c d hcle, pyIndex_id rf idv hid, List.nil_append]
    have htc : handle_tool_call (.obj rf) = ⟨[streamFinal idv], .ok none⟩ := by
      unfold handle_tool_call
      simp only [pyGet, hp, Option.getD_some, pyOr, truthy_obj_of_find hn, if_true, hn]
      simpa [jsonEqStr] using hstream
    rw [processLine_handler rf "tools/call" handle_tool_call hm rfl, htc, if_pos hcle]
    rfl
  · have hcpos : 0 < c := by omega
    have hstream : handle_call_stream (.obj rf) =
        ⟨[chunkMsg 1 c], .error (.valueError "sleep length must be non-negative")⟩ := by
      unfold handle_call_stream
      simp only [pyGet, hp, Option.getD_some, ha, hc, hdl, pyIntConv_intCast, pyFloatConv,
        runChunkLoop_neg_pos c hd hcpos]
    have htc : handle_tool_call (.obj rf) =
        ⟨[chunkMsg 1 c], .error (.valueError "sleep length must be non-negative")⟩ := by
      unfold handle_tool_call
      simp only [pyGet, hp, Option.getD_some, pyOr, truthy_obj_of_find hn, if_true, hn]
      simpa [jsonEqStr] using hstream
    rw [processLine_handler rf "tools/call" handle_tool_call hm rfl, htc, if_neg hcle]
    rfl

/-- Witness for C4 with `count = 2`, `delay = -1`, id 3. -/
theorem claim_C4_witness :
    processLine (.json (.obj [("jsonrpc", .str "2.0"), ("id", .num 3),
      ("method", .str "tools/call"),
      ("params", .obj [("name", .str "call_stream"),
        ("arguments", .obj [("count", .num 2), ("delay", .num (-1))])])])) =
      (if (2 : ℤ) ≤ 0 then
        ([Json.obj [("jsonrpc", .str "2.0"), ("id", .num 3),
          ("result", .obj [("result", .str "Stream complete")])]], true)
      else
        ([Json.obj [("jsonrpc", .str "2.0"), ("method", .str "chunk"),
          ("params", .obj [("result", .str ("Chunk 1 of " ++ toString (2 : ℤ)))])]],
          false)) :=
  claim_C4_amended_negative_delay _ _ _ _ 2 (-1) rfl rfl rfl rfl rfl rfl
    (by norm_num) rfl

/-- C5 counterexample: an `initialize` request with no id at all does not
get a response with a null id — `req["id"]` raises `KeyError`, nothing is
written, and the loop dies. -/
theorem claim_C5_counterexample :
    processLine (.json (.obj [("jsonrpc", .str "2.0"),
      ("method", .str "initialize")])) = ([], false) := rfl

/-- C5 amended: a present-but-null id does yield a response with a null id —
concretely for `initialize` (first conjunct) and in general: whenever a
known-method request with a null id completes without an exception, its
single response carries `id = null` (second conjunct).  An absent id is not
treated the same: every handler that reads `req["id"]` — `initialize`,
`tools/list`, `tools/call` and `chat/send` — raises `KeyError`, produces no
response at all and kills the loop (third to sixth conjuncts); only
`shutdown`, which uses `req.get("id")`, and the unknown-method branch
respond with a null id when the id is absent (last two conjuncts). -/
theorem claim_C5_amended_missing_id :
    (∀ rf : List (String × Json),
      dictFind rf "method" = some (.str "initialize") →
      dictFind rf "id" = some .null →
      processLine (.json (.obj rf)) =
        ([Json.obj [("jsonrpc", .str "2.0"), ("id", .null),
          ("result", .obj [("mcp_version", .str "1.0"),
            ("capabilities", .obj [("chat", .bool true), ("streaming", .bool true),
              ("tool_calls", .bool true), ("shutdown", .bool true)])])]], true)) ∧
    (∀ (rf : List (String × Json)) (s : String) (outs : List Json),
      dictFind rf "id" = some .null →
      dictFind rf "method" = some (.str s) →
      (s = "initialize" ∨ s = "tools/list" ∨ s = "tools/call" ∨
        s = "chat/send" ∨ s = "shutdown") →
      processLine (.json (.obj rf)) = (outs, true) →
      ∃ r, responses outs = [r] ∧ respId r = some .null) ∧
    (∀ rf : List (String × Json),
      dictFind rf "method" = some (.str "initialize") →
      dictFind rf "id" = none →
      processLine (.json (.obj rf)) = ([], false)) ∧
    (∀ rf : List (String × Json),
      dictFind rf "method" = some (.str "tools/list") →
      dictFind rf "id" = none →
      processLine (.json (.obj rf)) = ([], false)) ∧
    (∀ rf pf : List (String × Json),
      dictFind rf "method" = some (.str "tools/call") →
      dictFind rf "params" = some (.obj pf) →
      dictFind pf "name" = some (.str "hello") →
      dictFind pf "arguments" = none →
      dictFind rf "id" = none →
      processLine (.json (.obj rf)) = ([], false)) ∧
    (∀ rf pf mf : List (String × Json),
      dictFind rf "method" = some (.str "chat/send") →
      dictFind rf "params" = some (.obj pf) →
      dictFind pf "message" = some (.obj mf) →
      dictFind rf "id" = none →
      processLine (.json (.obj rf)) = ([], false)) ∧
    (∀ rf : List (String × Json),
      dictFind rf "method" = some (.str "shutdown") →
      (dictFind rf "id" = none ∨ dictFind rf "id" = some .null) →
      processLine (.json (.obj rf)) =
        ([Json.obj [("jsonrpc", .str "2.0"), ("id", .null), ("result", .null)]], true)) ∧
    (∀ (rf : List (String × Json)) (s : String),
      dictFind rf "method" = some (.str s) →
      METHOD_MAP s = none →
      dictFind rf "id" = none →
      processLine (.json (.obj rf)) =
        ([Json.obj [("jsonrpc", .str "2.0"), ("id", .null),
          ("error", .obj [("code", .num (-32601)),
            ("message", .str ("Unknown method " ++ s))])]], true)) := by
  refine ⟨?_, ?_, ?_, ?_, ?_, ?_, ?_, ?_⟩
  · intro rf hm hnull
    have h1 : handle_initialize (.obj rf) =
        ⟨[], .ok (some (.obj [("jsonrpc", .str "2.0"), ("id", .null),
          ("result", .obj [("mcp_version", .str "1.0"),
            ("capabilities", .obj [("chat", .bool true), ("streaming", .bool true),
              ("tool_calls", .bool true), ("shutdown", .bool true)])])]))⟩ := by
      unfold handle_initialize
      simp only [pyIndex_id rf .null hnull]
    rw [processLine_handler rf "initialize" handle_initialize hm rfl, h1]
    rfl
  · intro rf s outs hid hm hknown hrun
    rcases hknown with h | h | h | h | h <;> subst h
    · exact processLine_ok_responses rf .null _ _ outs hm rfl
        (handle_initialize_ok rf .null hid) hrun
    · exact processLine_ok_responses rf .null _ _ outs hm rfl
        (handle_tools_list_ok rf .null hid) hrun
    · exact processLine_ok_responses rf .null _ _ outs hm rfl
        (handle_tool_call_ok rf .null hid) hrun
    · exact processLine_ok_responses rf .null _ _ outs hm rfl
        (handle_chat_send_ok rf .null hid) hrun
    · exact processLine_ok_responses rf .null _ _ outs hm rfl
        (handle_shutdown_ok rf .null hid) hrun
  · intro rf hm habs
    have h1 : handle_initialize (.obj rf) = ⟨[], .error (.keyError "id")⟩ := by
      unfold handle_initialize
      simp only [pyIndex_absent rf habs]
    rw [processLine_handler rf "initialize" handle_initialize hm rfl, h1]
  · intro rf hm habs
    have h1 : handle_tools_list (.obj rf) = ⟨[], .error (.keyError "id")⟩ := by
      unfold handle_tools_list
      simp only [pyIndex_absent rf habs]
    rw [processLine_handler rf "tools/list" handle_tools_list hm rfl, h1]
  · intro rf pf hm hp hn ha habs
    have htc : handle_tool_call (.obj rf) = ⟨[], .error (.keyError "id")⟩ := by
      unfold handle_tool_call
      simp only [pyGet, hp, Option.getD_some, pyOr, truthy_obj_of_find hn, if_true, hn,
        ha, Option.getD_none, dictFind_nil, pyIndex_absent rf habs]
      simp [jsonEqStr, truthy]
    rw [processLine_handler rf "tools/call" handle_tool_call hm rfl, htc]
  · intro rf pf mf hm hp hmsg habs
    have h1 : handle_chat_send (.obj rf) = ⟨[], .error (.keyError "id")⟩ := by
      unfold handle_chat_send
      simp only [pyGet, hp, Option.getD_some, hmsg, pyIndex_absent rf habs]
    rw [processLine_handler rf "chat/send" handle_chat_send hm rfl, h1]
  · intro rf hm hid
    have h1 : handle_shutdown (.obj rf) =
        ⟨[], .ok (some (.obj [("jsonrpc", .str "2.0"), ("id", .null),
          ("result", .null)]))⟩ := by
      unfold handle_shutdown
      rcases hid with h | h <;> simp only [pyGet, h, Option.getD_some, Option.getD_none]
    rw [processLine_handler rf "shutdown" handle_shutdown hm rfl, h1]
    rfl
  · intro rf s hm hmn habs
    simp only [processLine, dispatchReq, hm, Option.getD_some, hmn, unknownMethodResp,
      habs, Option.getD_none, pyStr, List.nil_append]
/-- Witness for C5: `initialize` with a present-but-null id responds with a
null id. -/
theorem claim_C5_witness :
    processLine (.json (.obj [("jsonrpc", .str "2.0"), ("id", .null),
      ("method", .str "initialize")])) =
      ([Json.obj [("jsonrpc", .str "2.0"), ("id", .null),
        ("result", .obj [("mcp_version", .str "1.0"),
          ("capabilities", .obj [("chat", .bool true), ("streaming", .bool true),
            ("tool_calls", .bool true), ("shutdown", .bool true)])])]], true) :=
  claim_C5_amended_missing_id.1 _ rfl rfl

/-- C6: a `tools/call` whose `params.name` is a string other than the
registered names `hello` and `call_stream` (exact, case-sensitive
comparison) yields exactly one error response with code `-32601` and
message `Tool not found`, carrying the request id, and zero chunk
notifications. -/
theorem claim_C6_tool_not_found
    (rf pf : List (String × Json)) (idv : Json) (nm : String)
    (hm : dictFind rf "method" = some (.str "tools/call"))
    (hp : dictFind rf "params" = some (.obj pf))
    (hn : dictFind pf "name" = some (.str nm))
    (h1 : nm ≠ "hello") (h2 : nm ≠ "call_stream")
    (hid : dictFind rf "id" = some idv) :
    processLine (.json (.obj rf)) =
      ([Json.obj [("jsonrpc", .str "2.0"), ("id", idv),
        ("error", .obj [("code", .num (-32601)),
          ("message", .str "Tool not found")])]], true) := by
  rw [processLine_handler rf "tools/call" handle_tool_call hm rfl,
    handle_tool_call_not_found rf pf idv nm hp hn h1 h2 hid]
  rfl

/-- Witness for C6 at `name = "missing_tool"`, id 5. -/
theorem claim_C6_witness :
    processLine (.json (.obj [("jsonrpc", .str "2.0"), ("id", .num 5),
      ("method", .str "tools/call"),
      ("params", .obj [("name", .str "missing_tool"), ("arguments", .obj [])])])) =
      ([Json.obj [("jsonrpc", .str "2.0"), ("id", .num 5),
        ("error", .obj [("code", .num (-32601)),
          ("message", .str "Tool not found")])]], true) :=
  claim_C6_tool_not_found _ _ _ "missing_tool" rfl rfl rfl
    (by decide) (by decide) rfl

/-- C7: a line that is not valid JSON produces zero output lines — no
response and no notification — and processing continues with the next
line; a blank or whitespace-only line is likewise skipped silently. -/
theorem claim_C7_malformed_and_blank (rest : List Line) :
    processLine Line.malformed = ([], true) ∧
    processLine Line.blank = ([], true) ∧
    runServer (Line.malformed :: rest) = runServer rest ∧
    runServer (Line.blank :: rest) = runServer rest := by
  refine ⟨rfl, rfl, ?_, ?_⟩ <;> rw [runServer_cons] <;> rfl

namespace Root

/-- `handle_call` of `src/server.py`, the synchronous-only variant: same
`hello` behaviour and the same `-32601` fallback, but no `or {}` on
`params` and no streaming branch. -/
def handle_call (req : Json) : Except PyErr Json :=
  match pyGet req "params" (.obj []) with
  | .error e => .error e
  | .ok ps =>
    match pyGet ps "name" .null with
    | .error e => .error e
    | .ok nameV =>
      match pyGet ps "arguments" (.obj []) with
      | .error e => .error e
      | .ok args0 =>
        let args := pyOr args0 (.obj [])
        if jsonEqStr nameV "hello" then
          match pyGet args "name" (.str "World") with
          | .error e => .error e
          | .ok who =>
            match pyIndex req "id" with
            | .error e => .error e
            | .ok idv => .ok (helloResp idv who)
        else
          match pyIndex req "id" with
          | .error e => .error e
          | .ok idv => .ok (toolNotFoundResp idv)

end Root

/-- C8: the Ada scenario — request
`{"jsonrpc":"2.0","id":1,"method":"tools/call","params":{"name":"hello","arguments":{"name":"Ada"}}}`
produces exactly the single response
`{"jsonrpc":"2.0","id":1,"result":{"result":"Hello, Ada!"}}` (first
conjunct, on the dispatcher of `src/scripts/server.py`; third conjunct, on
`handle_call` of `src/server.py`); and every `tools/call` of `hello` whose
arguments omit the `name` key answers with the schema default `World`,
yielding `Hello, World!` (second conjunct). -/
theorem claim_C8_hello_scenario :
    (runServer [.json (.obj [("jsonrpc", .str "2.0"), ("id", .num 1),
        ("method", .str "tools/call"),
        ("params", .obj [("name", .str "hello"),
          ("arguments", .obj [("name", .str "Ada")])])])] =
      [Json.obj [("jsonrpc", .str "2.0"), ("id", .num 1),
        ("result", .obj [("result", .str "Hello, Ada!")])]]) ∧
    (∀ (rf pf af : List (String × Json)) (idv : Json),
      dictFind rf "method" = some (.str "tools/call") →
      dictFind rf "params" = some (.obj pf) →
      dictFind pf "name" = some (.str "hello") →
      dictFind pf "arguments" = some (.obj af) →
      dictFind af "name" = none →
      dictFind rf "id" = some idv →
      processLine (.json (.obj rf)) =
        ([Json.obj [("jsonrpc", .str "2.0"), ("id", idv),
          ("result", .obj [("result", .str "Hello, World!")])]], true)) ∧
    (Root.handle_call (.obj [("jsonrpc", .str "2.0"), ("id", .num 1),
        ("method", .str "tools/call"),
        ("params", .obj [("name", .str "hello"),
          ("arguments", .obj [("name", .str "Ada")])])]) =
      .ok (.obj [("jsonrpc", .str "2.0"), ("id", .num 1),
        ("result", .obj [("result", .str "Hello, Ada!")])])) := by
  refine ⟨rfl, ?_, rfl⟩
  intro rf pf af idv hm hp hn ha haf hid
  have htc : handle_tool_call (.obj rf) =
      ⟨[], .ok (some (helloResp idv (.str "World")))⟩ := by
    unfold handle_tool_call
    cases htr : truthy (.obj af) <;>
      simp only [pyGet, hp, Option.getD_some, pyOr, truthy_obj_of_find hn, if_true, hn,
        ha, htr, Bool.false_eq_true, if_false, dictFind_nil, Option.getD_none, haf,
        pyIndex_id rf idv hid] <;>
      simp [jsonEqStr]
  rw [processLine_handler rf "tools/call" handle_tool_call hm rfl, htc]
  rfl

/-- Witness for C8's universally quantified part: `hello` with an empty
arguments object and id 4. -/
theorem claim_C8_witness :
    processLine (.json (.obj [("jsonrpc", .str "2.0"), ("id", .num 4),
      ("method", .str "tools/call"),
      ("params", .obj [("name", .str "hello"), ("arguments", .obj [])])])) =
      ([Json.obj [("jsonrpc", .str "2.0"), ("id", .num 4),
        ("result", .obj [("result", .str "Hello, World!")])]], true) :=
  claim_C8_hello_scenario.2.1 _ _ [] (.num 4) rfl rfl rfl rfl rfl rfl

/-- C9: `tools/list` is idempotent — any two `tools/list` requests, with
any ids and in any order relative to other requests, are answered with the
identical ordered descriptor sequence `TOOLS`.  `processLine` is a pure
function of the line (the registry is the module-level constant `TOOLS`
and no handler mutates any state), so the response to a `tools/list`
request is independent of whatever was processed before it; the theorem
exhibits the common value for two arbitrary such requests. -/
theorem claim_C9_tools_list_idempotent
    (rf rg : List (String × Json)) (idv idw : Json)
    (hm1 : dictFind rf "method" = some (.str "tools/list"))
    (hid1 : dictFind rf "id" = some idv)
    (hm2 : dictFind rg "method" = some (.str "tools/list"))
    (hid2 : dictFind rg "id" = some idw) :
    processLine (.json (.obj rf)) =
      ([Json.obj [("jsonrpc", .str "2.0"), ("id", idv),
        ("result", .obj [("tools", TOOLS)])]], true) ∧
    processLine (.json (.obj rg)) =
      ([Json.obj [("jsonrpc", .str "2.0"), ("id", idw),
        ("result", .obj [("tools", TOOLS)])]], true) := by
  constructor
  · have h1 : handle_tools_list (.obj rf) =
        ⟨[], .ok (some (.obj [("jsonrpc", .str "2.0"), ("id", idv),
          ("result", .obj [("tools", TOOLS)])]))⟩ := by
      unfold handle_tools_list
      simp only [pyIndex_id rf idv hid1]
    rw [processLine_handler rf "tools/list" handle_tools_list hm1 rfl, h1]
    rfl
  · have h1 : handle_tools_list (.obj rg) =
        ⟨[], .ok (some (.obj [("jsonrpc", .str "2.0"), ("id", idw),
          ("result", .obj [("tools", TOOLS)])]))⟩ := by
      unfold handle_tools_list
      simp only [pyIndex_id rg idw hid2]
    rw [processLine_handler rg "tools/list" handle_tools_list hm2 rfl, h1]
    rfl

/-- Witness for C9 with ids 10 and 11. -/
theorem claim_C9_witness :
    processLine (.json (.obj [("jsonrpc", .str "2.0"), ("id", .num 10),
      ("method", .str "tools/list")])) =
      ([Json.obj [("jsonrpc", .str "2.0"), ("id", .num 10),
        ("result", .obj [("tools", TOOLS)])]], true) ∧
    processLine (.json (.obj [("jsonrpc", .str "2.0"), ("id", .num 11),
      ("method", .str "tools/list")])) =
      ([Json.obj [("jsonrpc", .str "2.0"), ("id", .num 11),
        ("result", .obj [("tools", TOOLS)])]], true) :=
  claim_C9_tools_list_idempotent _ _ (.num 10) (.num 11) rfl rfl rfl rfl

/-- C10 counterexample: `call_stream` with `"arguments": null` is not
treated as an empty mapping — `handle_call_stream` recomputes
`req.get("params", {}).get("arguments", {})` without the `or {}`, gets
`None`, and `None.get("count", 5)` raises `AttributeError`: no output is
written and the loop dies. -/
theorem claim_C10_counterexample :
    processLine (.json (.obj [("jsonrpc", .str "2.0"), ("id", .num 1),
      ("method", .str "tools/call"),
      ("params", .obj [("name", .str "call_stream"), ("arguments", .null)])])) =
      ([], false) := rfl

/-- C10 amended: an absent `arguments` is treated as an empty mapping for
every tool — `hello` answers with the default greeting (first conjunct,
which also covers a present-but-null `arguments` via the `or {}` in
`handle_tool_call`), and `call_stream` streams with its schema defaults
`count = 5`, `delay = 1` (second conjunct); but a present-but-null
`arguments` makes `call_stream` raise `AttributeError` and produce no
output at all (third conjunct), because `handle_call_stream` refetches it
without the `or {}`. -/
theorem claim_C10_amended_null_arguments :
    (∀ (rf pf : List (String × Json)) (idv : Json),
      dictFind rf "method" = some (.str "tools/call") →
      dictFind rf "params" = some (.obj pf) →
      dictFind pf "name" = some (.str "hello") →
      (dictFind pf "arguments" = some .null ∨ dictFind pf "arguments" = none) →
      dictFind rf "id" = some idv →
      processLine (.json (.obj rf)) =
        ([Json.obj [("jsonrpc", .str "2.0"), ("id", idv),
          ("result", .obj [("result", .str "Hello, World!")])]], true)) ∧
    (∀ (rf pf : List (String × Json)) (idv : Json),
      dictFind rf "method" = some (.str "tools/call") →
      dictFind rf "params" = some (.obj pf) →
      dictFind pf "name" = some (.str "call_stream") →
      dictFind pf "arguments" = none →
      dictFind rf "id" = some idv →
      processLine (.json (.obj rf)) =
        ([Json.obj [("jsonrpc", .str "2.0"), ("method", .str "chunk"),
            ("params", .obj [("result", .str "Chunk 1 of 5")])],
          Json.obj [("jsonrpc", .str "2.0"), ("method", .str "chunk"),
            ("params", .obj [("result", .str "Chunk 2 of 5")])],
          Json.obj [("jsonrpc", .str "2.0"), ("method", .str "chunk"),
            ("params", .obj [("result", .str "Chunk 3 of 5")])],
          Json.obj [("jsonrpc", .str "2.0"), ("method", .str "chunk"),
            ("params", .obj [("result", .str "Chunk 4 of 5")])],
          Json.obj [("jsonrpc", .str "2.0"), ("method", .str "chunk"),
            ("params", .obj [("result", .str "Chunk 5 of 5")])],
          Json.obj [("jsonrpc", .str "2.0"), ("id", idv),
            ("result", .obj [("result", .str "Stream complete")])]], true)) ∧
    (∀ (rf pf : List (String × Json)),
      dictFind rf "method" = some (.str "tools/call") →
      dictFind rf "params" = some (.obj pf) →
      dictFind pf "name" = some (.str "call_stream") →
      dictFind pf "arguments" = some .null →
      processLine (.json (.obj rf)) = ([], false)) := by
  refine ⟨?_, ?_, ?_⟩
  · intro rf pf idv hm hp hn ha hid
    have htc : handle_tool_call (.obj rf) =
        ⟨[], .ok (some (helloResp idv (.str "World")))⟩ := by
      unfold handle_tool_call
      rcases ha with h | h <;>
        simp only [pyGet, hp, Option.getD_some, pyOr, truthy_obj_of_find hn, if_true, hn,
          h, Option.getD_none, dictFind_nil, pyIndex_id rf idv hid] <;>
        simp [jsonEqStr, truthy, dictFind_nil]
    rw [processLine_handler rf "tools/call" handle_tool_call hm rfl, htc]
    rfl
  · intro rf pf idv hm hp hn ha hid
    have hic : pyIntConv (.num 5) = .ok 5 := rfl
    have hfc : pyFloatConv (.num 1) = .ok 1 := rfl
    have hrc : runChunkLoop 5 1 =
        ([chunkMsg 1 5, chunkMsg 2 5, chunkMsg 3 5, chunkMsg 4 5, chunkMsg 5 5],
          .ok ()) := rfl
    have hstream : handle_call_stream (.obj rf) =
        ⟨[chunkMsg 1 5, chunkMsg 2 5, chunkMsg 3 5, chunkMsg 4 5, chunkMsg 5 5,
          streamFinal idv], .ok none⟩ := by
      unfold handle_call_stream
      simp only [pyGet, hp, Option.getD_some, ha, Option.getD_none, dictFind_nil,
        hic, hfc, hrc, pyIndex_id rf idv hid, List.cons_append, List.nil_append]
    have htc : handle_tool_call (.obj rf) =
        ⟨[chunkMsg 1 5, chunkMsg 2 5, chunkMsg 3 5, chunkMsg 4 5, chunkMsg 5 5,
          streamFinal idv], .ok none⟩ := by
      unfold handle_tool_call
      simp only [pyGet, hp, Option.getD_some, pyOr, truthy_obj_of_find hn, if_true, hn,
        ha, Option.getD_none, dictFind_nil]
      simpa [jsonEqStr, truthy] using hstream
    rw [processLine_handler rf "tools/call" handle_tool_call hm rfl, htc]
    rfl
  · intro rf pf hm hp hn ha
    have hstream : handle_call_stream (.obj rf) =
        ⟨[], .error (.attributeError "object has no attribute get")⟩ := by
      unfold handle_call_stream
      simp only [pyGet, hp, Option.getD_some, ha]
    have htc : handle_tool_call (.obj rf) =
        ⟨[], .error (.attributeError "object has no attribute get")⟩ := by
      unfold handle_tool_call
      simp only [pyGet, hp, Option.getD_some, pyOr, truthy_obj_of_find hn, if_true, hn]
      simpa [jsonEqStr] using hstream
    rw [processLine_handler rf "tools/call" handle_tool_call hm rfl, htc]

/-- Witness for C10: `hello` with `"arguments": null` and id 4 answers
`Hello, World!`. -/
theorem claim_C10_witness :
    processLine (.json (.obj [("jsonrpc", .str "2.0"), ("id", .num 4),
      ("method", .str "tools/call"),
      ("params", .obj [("name", .str "hello"), ("arguments", .null)])])) =
      ([Json.obj [("jsonrpc", .str "2.0"), ("id", .num 4),
        ("result", .obj [("result", .str "Hello, World!")])]], true) :=
  claim_C10_amended_null_arguments.1 _ _ (.num 4) rfl rfl rfl (Or.inl rfl) rfl

end MCP
